import Mathlib

/-!
Shallow embedding of the chatbot core of `app.py`: the function `process_query`
(lines 49-279), its entity resolution (brand substring scan, `find_car`) and its
answer generators, over the record table loaded in `load_data` (lines 29-44).

Modelling conventions:
* The record store is a `List Record`, one element per dataframe row, in row order.
* pandas operations that raise are modelled with `Except PyErr`:
  `Series.idxmax`/`idxmin` on an empty frame raise `ValueError`;
  `bool(row_series)` ("the truth value of a Series is ambiguous") raises `ValueError`;
  `DataFrame.loc[missing_label]` raises `KeyError`.
* `random.choice(pool)` is modelled as `pyChoice pool rng` where `rng` is an
  injected random source: `pool[rng % len(pool)]`; `process_query` takes `rng`
  as an extra argument (the code draws at most once per call).
* Numeric columns are `ℚ`.  Python float *formatting* (`:,.0f`, `:.0f`, `:.1f`,
  raw f-string interpolation) is abstracted by deterministic formatters below;
  the abstraction only touches digit rendering (e.g. rounding of exact halves,
  decimal notation of non-integers), never which record or value is chosen.
* pandas `.str.contains` is modelled as literal substring containment
  (the fragments relevant here contain no regex metacharacters).
-/

namespace EV

/-- Python-level exceptions that the pandas calls inside `process_query` can raise. -/
inductive PyErr where
  | valueError
  | keyError
deriving DecidableEq

/-- One row of the car table after `load_data`: `Brand` upper-cased (line 33),
`Model` stripped (line 34).  `accel0to100` is the column named `0-100`. -/
structure Record where
  Brand : String
  Model : String
  Estimated_US_Value : ℚ
  km_of_range : ℚ
  accel0to100 : ℚ
  Top_Speed : ℚ
  Battery : ℚ
  Efficiency : ℚ
  Number_of_seats : ℚ
  Towing_capacity_in_kg : ℚ
deriving DecidableEq

/-! ### Python string primitives, on `List Char` -/

/-- `str.lower()`. -/
def pyLowerL (l : List Char) : List Char := l.map Char.toLower

/-- `str.lower()` on a `String`. -/
def pyLowerS (s : String) : String := ⟨pyLowerL s.data⟩

/-- `str.strip()`: drop leading and trailing whitespace. -/
def trimL (l : List Char) : List Char :=
  (((l.dropWhile Char.isWhitespace).reverse).dropWhile Char.isWhitespace).reverse

/-- `str.strip()` on a `String`. -/
def pyStrip (s : String) : String := ⟨trimL s.data⟩

/-- Python `pat in hay` (substring containment), recursing over the haystack. -/
def containsL (hay pat : List Char) : Bool :=
  match hay with
  | [] => pat.isEmpty
  | c :: t => pat.isPrefixOf (c :: t) || containsL t pat

/-- Python `needle in hay` for strings. -/
def occursIn (needle hay : String) : Bool := containsL hay.data needle.data

/-- `str.title()`: a letter is upper-cased when the previous character is not a
letter, lower-cased otherwise; other characters pass through. -/
def pyTitleAux : List Char → Bool → List Char
  | [], _ => []
  | c :: rest, prevAlpha =>
    (if c.isAlpha then (if prevAlpha then c.toLower else c.toUpper) else c) ::
      pyTitleAux rest c.isAlpha

/-- `str.title()` on a `String`. -/
def pyTitle (s : String) : String := ⟨pyTitleAux s.data false⟩

/-- `re.sub(r'\s+', ' ', ·)` (line 44): each maximal whitespace run becomes one space.
The Bool argument records whether the previous character was whitespace. -/
def collapseWsAux : List Char → Bool → List Char
  | [], _ => []
  | c :: rest, prevWs =>
    if c.isWhitespace then
      (if prevWs then collapseWsAux rest true else ' ' :: collapseWsAux rest true)
    else c :: collapseWsAux rest false

/-- `re.sub(r'\s+', ' ', ·)` on a char list. -/
def collapseWs (l : List Char) : List Char := collapseWsAux l false

/-- `str.replace(c, "")` for a one-character pattern: delete each occurrence. -/
def removeChar (x : Char) (l : List Char) : List Char := l.filter (fun c => c != x)

/-- `str.replace(pat, rep)`: all occurrences, left to right, non-overlapping.
The `Nat` argument is structural fuel (the input length suffices for a
non-empty pattern). -/
def replaceAux (pat rep : List Char) : Nat → List Char → List Char
  | _, [] => []
  | 0, l => l
  | fuel + 1, c :: rest =>
    if pat.isPrefixOf (c :: rest) then
      rep ++ replaceAux pat rep fuel ((c :: rest).drop pat.length)
    else c :: replaceAux pat rep fuel rest

/-- `str.replace(pat, rep)` on `String` (the patterns used in `process_query`
are non-empty). -/
def pyReplace (s pat rep : String) : String :=
  if pat.data.isEmpty then s else ⟨replaceAux pat.data rep.data s.data.length s.data⟩

/-- `str.split("|")`. -/
def splitOnBarL : List Char → List (List Char)
  | [] => [[]]
  | c :: rest =>
    match splitOnBarL rest with
    | [] => [[]]
    | h :: t => if c = '|' then [] :: h :: t else (c :: h) :: t

/-- `str.split("|")` on a `String`. -/
def pySplitBar (s : String) : List String := (splitOnBarL s.data).map (fun l => (⟨l⟩ : String))

/-- `len(str.split())`: the number of maximal non-whitespace runs. -/
def wordCountAux : List Char → Bool → Nat
  | [], _ => 0
  | c :: rest, inWord =>
    if c.isWhitespace then wordCountAux rest false
    else (if inWord then 0 else 1) + wordCountAux rest true

/-- `len(str.split())` on a `String`. -/
def wordCount (s : String) : Nat := wordCountAux s.data false

/-- Lexicographic order on char lists (Python string comparison by code point). -/
def lexLe : List Char → List Char → Bool
  | [], _ => true
  | _ :: _, [] => false
  | a :: as, b :: bs => if a = b then lexLe as bs else decide (a < b)

/-- Insertion step of `sorted`. -/
def insertSorted (s : String) : List String → List String
  | [] => [s]
  | b :: rest => if lexLe s.data b.data then s :: b :: rest else b :: insertSorted s rest

/-- Python `sorted` on strings. -/
def sortStrings (l : List String) : List String := l.foldr insertSorted []

/-- pandas `Series.unique()`: first-occurrence order, duplicates dropped.
`seen` accumulates values already emitted. -/
def uniqAux : List String → List String → List String
  | [], _ => []
  | b :: rest, seen => if b ∈ seen then uniqAux rest seen else b :: uniqAux rest (b :: seen)

/-- pandas `Series.unique()` on the brand column. -/
def uniqueFirst (l : List String) : List String := uniqAux l []

/-! ### Numeric formatting

These abstract Python's float formatting.  `pyRound` rounds half away from
zero where Python's `format` rounds half to even; no claim in this development
depends on the rendering of a numeric value, only on which record is chosen. -/

/-- Round to the nearest integer, halves up: `⌊q + 1/2⌋` computed on `num`/`den`. -/
def pyRound (q : ℚ) : ℤ := Int.fdiv (2 * q.num + (q.den : ℤ)) (2 * (q.den : ℤ))

/-- Insert `','` after every third digit, working on the reversed digit list. -/
def groupRev : Nat → List Char → List Char
  | _, [] => []
  | 0, c :: rest => ',' :: c :: groupRev 2 rest
  | k + 1, c :: rest => c :: groupRev k rest

/-- `"{:,}".format(n)` for an integer. -/
def fmtComma (n : ℤ) : String :=
  (if n < 0 then "-" else "") ++ (⟨(groupRev 3 (toString n.natAbs).data.reverse).reverse⟩ : String)

/-- `"{:,.0f}".format(q)`. -/
def fmtMoney (q : ℚ) : String := fmtComma (pyRound q)

/-- `"{:.0f}".format(q)`. -/
def fmtR0 (q : ℚ) : String := toString (pyRound q)

/-- `"{:.1f}".format(q)` (for the non-negative values appearing here). -/
def fmtR1 (q : ℚ) : String :=
  let n := pyRound (10 * q)
  toString (Int.fdiv n 10) ++ "." ++ toString (n - 10 * Int.fdiv n 10).natAbs

/-- Python `int(x)`: truncation toward zero. -/
def pyInt (q : ℚ) : ℤ := q.num / (q.den : ℤ)

/-- `f"{int(x)}"`. -/
def pyIntStr (q : ℚ) : String := toString (pyInt q)

/-- Raw f-string interpolation of a float value; decimal notation abstracted. -/
def fmtRat (q : ℚ) : String :=
  if q.den = 1 then toString q.num ++ ".0" else toString q.num ++ "/" ++ toString q.den

/-- pandas `Series.mean()`: `NaN` on an empty column is modelled as `none`. -/
def meanQ (l : List ℚ) : Option ℚ :=
  match l with
  | [] => none
  | _ :: _ => some (l.sum / (l.length : ℚ))

/-- pandas `Series.min()` (`NaN`, i.e. `none`, on an empty column). -/
def colMin (l : List ℚ) : Option ℚ :=
  match l with
  | [] => none
  | x :: xs => some (xs.foldl min x)

/-- pandas `Series.max()` (`NaN`, i.e. `none`, on an empty column). -/
def colMax (l : List ℚ) : Option ℚ :=
  match l with
  | [] => none
  | x :: xs => some (xs.foldl max x)

/-- `f"${v:,.0f}"` where `v` may be pandas `NaN` (renders as `nan`). -/
def fmtMoneyO : Option ℚ → String
  | none => "nan"
  | some q => fmtMoney q

/-- `f"{v:.0f}"` where `v` may be `NaN`. -/
def fmtR0O : Option ℚ → String
  | none => "nan"
  | some q => fmtR0 q

/-- `f"{v:.1f}"` where `v` may be `NaN`. -/
def fmtR1O : Option ℚ → String
  | none => "nan"
  | some q => fmtR1 q

/-- Raw interpolation of a possibly-`NaN` value. -/
def fmtRatO : Option ℚ → String
  | none => "nan"
  | some q => fmtRat q

/-- `f"{int(v)}"` where `v` may be `NaN` (only reached on non-empty data here). -/
def pyIntStrO : Option ℚ → String
  | none => "nan"
  | some q => pyIntStr q

/-! ### pandas `idxmin` / `idxmax` followed by `.loc`

`df.loc[df[col].idxmin()]` selects the first row attaining the minimum;
on an empty frame `idxmin` raises, modelled by `none`. -/

/-- First row of minimal `f`-value (`idxmin` + `.loc`); `none` on empty input. -/
def firstMinBy (f : Record → ℚ) : List Record → Option Record
  | [] => none
  | r :: rs =>
    match firstMinBy f rs with
    | none => some r
    | some m => if f r ≤ f m then some r else some m

/-- First row of maximal `f`-value (`idxmax` + `.loc`); `none` on empty input. -/
def firstMaxBy (f : Record → ℚ) : List Record → Option Record
  | [] => none
  | r :: rs =>
    match firstMaxBy f rs with
    | none => some r
    | some m => if f m ≤ f r then some r else some m

/-! ### Entity resolution -/

/-- The characters deleted by the fragment normalization of `find_car`:
space and hyphen. -/
def isSepC (c : Char) : Bool := c = ' ' || c = '-'

/-- `Model_Key` (line 44): lower-cased model name, whitespace runs collapsed. -/
def modelKeyL (r : Record) : List Char := collapseWs (pyLowerL r.Model.data)

/-- The key built from a query fragment (lines 174, 206):
`fragment.lower().replace(" ", "").replace("-", "")`. -/
def fragKeyL (s : String) : List Char := removeChar '-' (removeChar ' ' (pyLowerL s.data))

/-- `find_car` (lines 173-176): first record whose `Model_Key` contains the
normalized fragment. -/
def find_car (store : List Record) (frag : String) : Option Record :=
  (store.filter (fun r => containsL (modelKeyL r) (fragKeyL frag))).head?

/-- `[b.lower() for b in df['Brand'].unique()]` (line 114). -/
def allBrandsOf (store : List Record) : List String :=
  (uniqueFirst (store.map (fun r => r.Brand))).map pyLowerS

/-- Brand detection loop (lines 115-119): first lower-cased brand occurring in
the query, returned in `.title()` form. -/
def firstBrand (brands : List String) (q : String) : Option String :=
  match brands with
  | [] => none
  | b :: rest => if occursIn b q then some (pyTitle b) else firstBrand rest q

/-! ### Canned strings -/

/-- Line 51. -/
def dataUnavailableMsg : String :=
  "Sorry, I can\x27t access the car data right now. Please check the data file."

/-- Lines 58-62. -/
def greetPool : List String :=
  ["Hey there! Ready to dive into the world of EVs?",
   "Hi! I\x27m your EV guru. Ask me about **range**, **price**, **speed**, or **compare cars**!",
   "Hello! What EV are you dreaming about today?"]

/-- Lines 66-76. -/
def helpText : String :=
  "I\x27m your **EV Assistant**! Here\x27s what I can do:\n\n" ++
  "• **Compare cars**: `compare Tesla Model 3 vs BMW i4`\n" ++
  "• **Compare brands**: `compare Tesla vs BMW`\n" ++
  "• **Car summary**: `tell me about Lucid Air`\n" ++
  "• **Best in class**: `longest range`, `cheapest car`, `fastest 0-100`\n" ++
  "• **Brand stats**: `best Tesla for towing`, `cheapest Porsche`\n" ++
  "• **Dataset info**: `show summary`, `how many cars?`\n" ++
  "• **List brands**: `brands`\n\n" ++
  "Try any of these!"

/-- Lines 80-84. -/
def thanksPool : List String :=
  ["You\x27re welcome! Charge safe!",
   "Happy to help! Come back for more EV insights.",
   "See you next time! Keep it electric!"]

/-- Lines 268-279. -/
def fallbackPool : List String :=
  ["I didn\x27t quite get that. Try:\n• `compare Tesla vs BMW`\n• `tell me about Model Y`\n• `longest range Porsche`\n• `show summary`",
   "Hmm, try asking:\n• **Compare**: `Model 3 vs i4`\n• **Best**: `cheapest Tesla`\n• **Stats**: `how many cars?`",
   "You can ask me to **compare brands**, **summarize cars**, or find the **best in any category**!"]

/-- `random.choice(pool)` with the injected random source `rng`. -/
def pyChoice (pool : List String) (rng : Nat) : String := pool.getD (rng % pool.length) ""

/-! ### Intent predicates, in the order of the `if` cascade -/

/-- Line 57. -/
def greetCond (q : String) : Bool :=
  ["hi", "hello", "hey", "yo", "howdy", "greetings"].any (fun g => occursIn g q)

/-- Line 65. -/
def helpCond (q : String) : Bool :=
  ["help", "what can you", "who are you", "info", "what do you do"].any (fun h => occursIn h q)

/-- Line 79. -/
def thanksCond (q : String) : Bool :=
  ["thanks", "thank you", "thankyou", "bye", "goodbye", "see you"].any (fun t => occursIn t q)

/-- Line 87. -/
def brandListCond (q : String) : Bool :=
  occursIn "brand" q && ["list", "all", "available", "show"].any (fun x => occursIn x q)

/-- Line 92. -/
def howManyCond (q : String) : Bool :=
  occursIn "how many" q && (occursIn "car" q || occursIn "model" q || occursIn "ev" q)

/-- Line 96. -/
def summaryCond (q : String) : Bool :=
  ["summary", "stats", "overview", "dataset", "data info"].any (fun s => occursIn s q)

/-- Lines 124 and 165 share `"compare" in q and "vs" in q`. -/
def compareCond (q : String) : Bool := occursIn "compare" q && occursIn "vs" q

/-- Line 200. -/
def carSummaryCond (q : String) : Bool :=
  ["tell me about", "info on", "summary", "details", "what is", "describe"].any
    (fun x => occursIn x q)

/-- Line 224. -/
def rangeExtCond (q : String) : Bool :=
  (occursIn "longest" q || occursIn "most" q || occursIn "best" q) && occursIn "range" q

/-- Line 228. -/
def cheapCond (q : String) : Bool :=
  occursIn "cheapest" q || (occursIn "lowest" q && occursIn "price" q)

/-- Line 235. -/
def fastCond (q : String) : Bool :=
  (occursIn "fastest" q || occursIn "quickest" q) &&
    (occursIn "0-100" q || occursIn "acceleration" q)

/-- Line 239. -/
def towCond (q : String) : Bool :=
  occursIn "towing" q && ["most", "highest", "best", "max"].any (fun x => occursIn x q)

/-- Line 244. -/
def brandSupCond (q : String) : Bool :=
  ["best", "top", "highest", "longest", "cheapest", "fastest"].any (fun x => occursIn x q)

/-! ### Answer generators -/

/-- Lines 87-89. -/
def brandListMsg (store : List Record) : String :=
  let bs := sortStrings (uniqueFirst (store.map (fun r => r.Brand)))
  "**Available Brands** (" ++ toString bs.length ++ "):  \n`" ++
    String.intercalate ", " bs ++ "`"

/-- Lines 92-93. -/
def howManyMsg (store : List Record) : String :=
  "There are **" ++ toString store.length ++ " EV models** in the database from **" ++
    toString (uniqueFirst (store.map (fun r => r.Brand))).length ++ " brands**."

/-- Lines 96-111. -/
def summaryMsg (store : List Record) : String :=
  let prices := store.map (fun r => r.Estimated_US_Value)
  let ranges := store.map (fun r => r.km_of_range)
  "### EV Dataset Summary\n\n" ++
  "**Total Models**: " ++ toString store.length ++ "\n" ++
  "**Brands**: " ++ toString (uniqueFirst (store.map (fun r => r.Brand))).length ++ "\n" ++
  "**Avg Price**: `$" ++ fmtMoneyO (meanQ prices) ++ "`\n" ++
  "**Avg Range**: " ++ fmtR0O (meanQ ranges) ++ " km\n" ++
  "**Avg Battery**: " ++ fmtR1O (meanQ (store.map (fun r => r.Battery))) ++ " kWh\n" ++
  "**Price Range**: `$" ++ fmtMoneyO (colMin prices) ++ "` → `$" ++ fmtMoneyO (colMax prices) ++ "`\n" ++
  "**Range Span**: " ++ pyIntStrO (colMin ranges) ++ " → " ++ pyIntStrO (colMax ranges) ++ " km"

/-- `brand_stats` rendering for one side of the brand comparison (lines 136-161). -/
def brandBlock (b : String) (d : List Record) : String :=
  "**" ++ b ++ "** (" ++ toString d.length ++ " models)\n" ++
  "• Avg Price: `$" ++ fmtMoneyO (meanQ (d.map (fun r => r.Estimated_US_Value))) ++ "`\n" ++
  "• Avg Range: " ++ fmtR0O (meanQ (d.map (fun r => r.km_of_range))) ++ " km\n" ++
  "• Longest Range: " ++ fmtRatO (colMax (d.map (fun r => r.km_of_range))) ++ " km\n" ++
  "• Cheapest: `$" ++ fmtMoneyO (colMin (d.map (fun r => r.Estimated_US_Value))) ++ "`\n" ++
  "• Fastest 0-100: " ++ fmtRatO (colMin (d.map (fun r => r.accel0to100))) ++ " sec"

/-- Brand-level comparison branch (lines 124-162). -/
def brandCompareResp (store : List Record) (q : String) : Except PyErr String :=
  let parts := pySplitBar (pyReplace (pyReplace q "compare" "") "vs" "|")
  let brand_names := (parts.filter (fun p => !(pyStrip p).data.isEmpty)).map
    (fun p => pyTitle (pyStrip p))
  let valid_brands := brand_names.filter
    (fun b => (uniqueFirst (store.map (fun r => r.Brand))).contains b)
  if valid_brands.length < 2 then
    Except.ok "Please compare **two valid brands**, e.g., `compare Tesla vs BMW`"
  else
    let b1 := valid_brands.getD 0 ""
    let b2 := valid_brands.getD 1 ""
    let df1 := store.filter (fun r => r.Brand == b1)
    let df2 := store.filter (fun r => r.Brand == b2)
    Except.ok ("### Brand Comparison: **" ++ b1 ++ "** vs **" ++ b2 ++ "**\n\n" ++
      brandBlock b1 df1 ++ "\n\n" ++ brandBlock b2 df2)

/-- Car comparison branch (lines 165-197).  When `find_car` succeeds for the
first fragment, `car1` is bound to a multi-column pandas row, and line 181
(`if not car1 or not car2:`) evaluates `bool(car1)`, which raises
`ValueError: The truth value of a Series is ambiguous`; the rendering code of
lines 185-197 is therefore unreachable.  When `car1` is `None`, the `or`
short-circuits and `missing` is `car1_query`. -/
def carCompareResp (store : List Record) (q : String) : Except PyErr String :=
  let parts := pySplitBar (pyReplace (pyReplace q "compare" "") "vs" "|")
  if parts.length < 2 then
    Except.ok "Please say: **compare [Car 1] vs [Car 2]** (e.g., `compare Model 3 vs i4`)"
  else
    let car1_query := pyStrip (parts.getD 0 "")
    match find_car store car1_query with
    | none =>
      Except.ok ("Couldn\x27t find **" ++ car1_query ++
        "**. Try full name like **Tesla Model Y** or **BMW i4**.")
    | some _ => Except.error PyErr.valueError

/-- Line 202. -/
def summaryStarts : List String :=
  ["tell me about ", "info on ", "summary of ", "details of ", "what is ", "describe "]

/-- Lines 201-205: strip the first matching leading phrase (matched on the
lower-cased string, sliced from the original). -/
def stripKnownStart (mq : String) : String :=
  match summaryStarts.find? (fun p => p.data.isPrefixOf (pyLowerL mq.data)) with
  | some p => pyStrip ⟨mq.data.drop p.data.length⟩
  | none => mq

/-- Car summary branch (lines 200-221). -/
def carSummaryResp (store : List Record) (original_q : String) : String :=
  let model_query := stripKnownStart original_q
  match (store.filter (fun r => containsL (modelKeyL r) (fragKeyL model_query))).head? with
  | none => "Sorry, I couldn\x27t find **" ++ model_query ++ "**. Try a full model name."
  | some car =>
    "### " ++ car.Brand ++ " " ++ car.Model ++ "\n\n" ++
    "**Price**: `$" ++ fmtMoney car.Estimated_US_Value ++ "`\n" ++
    "**Range**: " ++ pyIntStr car.km_of_range ++ " km\n" ++
    "**0-100 km/h**: " ++ fmtRat car.accel0to100 ++ " sec\n" ++
    "**Top Speed**: " ++ pyIntStr car.Top_Speed ++ " km/h\n" ++
    "**Battery**: " ++ fmtR1 car.Battery ++ " kWh\n" ++
    "**Efficiency**: " ++ pyIntStr car.Efficiency ++ " Wh/km\n" ++
    "**Seats**: " ++ pyIntStr car.Number_of_seats ++ "\n" ++
    "**Towing**: " ++ pyIntStr car.Towing_capacity_in_kg ++ " kg"

/-- Lines 256-265. -/
def brandSummaryMsg (fb : String) (ctx : List Record) : String :=
  let prices := ctx.map (fun r => r.Estimated_US_Value)
  "**" ++ fb ++ "** has **" ++ toString ctx.length ++ " models**.\n" ++
  "• Avg Price: **$" ++ fmtMoneyO (meanQ prices) ++ "**\n" ++
  "• Avg Range: **" ++ fmtR0O (meanQ (ctx.map (fun r => r.km_of_range))) ++ " km**\n" ++
  "• Price Range: `$" ++ fmtMoneyO (colMin prices) ++ "` – `$" ++ fmtMoneyO (colMax prices) ++ "`"

/-- Body of `process_query` after the empty-store guard, taking the lower-cased
stripped query `q` and the stripped original `original_q` (lines 53-279). -/
def answerQ (store : List Record) (rng : Nat) (q original_q : String) : Except PyErr String :=
  if greetCond q then Except.ok (pyChoice greetPool rng)
  else if helpCond q then Except.ok helpText
  else if thanksCond q then Except.ok (pyChoice thanksPool rng)
  else if brandListCond q then Except.ok (brandListMsg store)
  else if howManyCond q then Except.ok (howManyMsg store)
  else if summaryCond q then Except.ok (summaryMsg store)
  else
    let found_brand := firstBrand (allBrandsOf store) q
    let df_context :=
      match found_brand with
      | some fb => store.filter (fun r => r.Brand == fb)
      | none => store
    let context :=
      match found_brand with
      | some fb => "For **" ++ fb ++ "**"
      | none => "Overall"
    if compareCond q && (allBrandsOf store).any (fun b => occursIn b q) then
      brandCompareResp store q
    else if compareCond q then
      carCompareResp store q
    else if carSummaryCond q then
      Except.ok (carSummaryResp store original_q)
    else if rangeExtCond q then
      match firstMaxBy (fun r => r.km_of_range) df_context with
      | none => Except.error PyErr.valueError
      | some car =>
        Except.ok (context ++ ", the **" ++ car.Brand ++ " " ++ car.Model ++
          "** has the longest range: **" ++ pyIntStr car.km_of_range ++ " km**.")
    else if cheapCond q then
      let valid := df_context.filter (fun r => decide (0 < r.Estimated_US_Value))
      if valid.isEmpty then
        Except.ok ("No priced cars found " ++ pyLowerS context ++ ".")
      else
        match firstMinBy (fun r => r.Estimated_US_Value) valid with
        | none => Except.error PyErr.valueError
        | some car =>
          Except.ok (context ++ ", the cheapest is **" ++ car.Brand ++ " " ++ car.Model ++
            "** at **$" ++ fmtMoney car.Estimated_US_Value ++ "**.")
    else if fastCond q then
      match firstMinBy (fun r => r.accel0to100) df_context with
      | none => Except.error PyErr.valueError
      | some car =>
        Except.ok (context ++ ", the fastest 0-100 is **" ++ car.Brand ++ " " ++ car.Model ++
          "** in **" ++ fmtRat car.accel0to100 ++ " sec**.")
    else if towCond q then
      match firstMaxBy (fun r => r.Towing_capacity_in_kg) df_context with
      | none => Except.error PyErr.valueError
      | some car =>
        Except.ok (context ++ ", the **" ++ car.Brand ++ " " ++ car.Model ++
          "** tows the most: **" ++ pyIntStr car.Towing_capacity_in_kg ++ " kg**.")
    else
      -- Lines 244-253 fall through to lines 256-265 / 268-279 when no inner test fires.
      let tail_resp : Except PyErr String :=
        match found_brand with
        | some fb =>
          if wordCount q ≤ 3 then Except.ok (brandSummaryMsg fb df_context)
          else Except.ok (pyChoice fallbackPool rng)
        | none => Except.ok (pyChoice fallbackPool rng)
      match found_brand with
      | some fb =>
        if brandSupCond q then
          if occursIn "range" q then
            match firstMaxBy (fun r => r.km_of_range) df_context with
            | none => Except.error PyErr.valueError
            | some car =>
              Except.ok ("Best **" ++ fb ++ "** for range: **" ++ car.Model ++ "** — " ++
                pyIntStr car.km_of_range ++ " km")
          else if occursIn "price" q || occursIn "cheapest" q then
            -- Line 249: `df_context[df_context[price] > 0].loc[df_context[price].idxmin()]`:
            -- `idxmin` over the unfiltered context (ValueError when empty); `.loc` then
            -- looks the resulting label up in the positive-price subframe, raising
            -- KeyError when the minimal-price row has price ≤ 0.
            match firstMinBy (fun r => r.Estimated_US_Value) df_context with
            | none => Except.error PyErr.valueError
            | some car =>
              if decide (0 < car.Estimated_US_Value) then
                Except.ok ("Cheapest **" ++ fb ++ "**: **" ++ car.Model ++ "** — `$" ++
                  fmtMoney car.Estimated_US_Value ++ "`")
              else Except.error PyErr.keyError
          else if occursIn "0-100" q || occursIn "acceleration" q || occursIn "fastest" q then
            match firstMinBy (fun r => r.accel0to100) df_context with
            | none => Except.error PyErr.valueError
            | some car =>
              Except.ok ("Fastest **" ++ fb ++ "**: **" ++ car.Model ++ "** — " ++
                fmtRat car.accel0to100 ++ " sec")
          else tail_resp
        else tail_resp
      | none => tail_resp

/-- `process_query` (lines 49-279): the empty-store guard of lines 50-51, then
the cascade on `q = query.lower().strip()` and `original_q = query.strip()`. -/
def process_query (store : List Record) (rng : Nat) (query : String) : Except PyErr String :=
  if store.isEmpty then Except.ok dataUnavailableMsg
  else answerQ store rng (pyStrip (pyLowerS query)) (pyStrip query)

/-! ### Concrete stores used by the closed theorems -/

/-- Two-brand demo store (fields: brand, model, price, range, 0-100, top speed,
battery, efficiency, seats, towing). -/
def evStore : List Record :=
  [⟨"TESLA", "ModelS", 90000, 600, 3, 250, 100, 180, 5, 1600⟩,
   ⟨"BMW", "i4", 55000, 480, 6, 225, 80, 170, 5, 1600⟩]

/-- Single-brand store whose lower-cased brand name contains the greeting
keyword `hi`. -/
def mitsubishiStore : List Record :=
  [⟨"MITSUBISHI", "Outlander", 42000, 480, 8, 170, 20, 160, 5, 1500⟩]

/-- Single-brand store whose brand name does not occur in `helpText`. -/
def kiaStore : List Record :=
  [⟨"KIA", "EV6", 48000, 500, 5, 230, 77, 170, 5, 1600⟩]

/-- Store whose only record has price 0 (price unknown). -/
def zeroPriceStore : List Record :=
  [⟨"TESLA", "ModelS", 0, 600, 3, 250, 100, 180, 5, 1600⟩]

/-- Store with a zero-priced first row and two positively priced rows. -/
def c3Store : List Record :=
  [⟨"TESLA", "ModelS", 0, 600, 3, 250, 100, 180, 5, 1600⟩,
   ⟨"NIO", "ET5", 40000, 550, 4, 200, 75, 160, 5, 1200⟩,
   ⟨"BMW", "i4", 55000, 480, 6, 225, 80, 170, 5, 1600⟩]

/-- A record whose model name is the two-word `Model 3`. -/
def modelThreeRec : Record :=
  ⟨"TESLA", "Model 3", 40000, 450, 6, 225, 60, 150, 5, 1000⟩

/-! ### Helper lemmas -/

lemma uniqAux_subset : ∀ (l seen : List String) (x : String), x ∈ uniqAux l seen → x ∈ l := by
  intro l
  induction l with
  | nil => intro seen x h; simp [uniqAux] at h
  | cons b rest ih =>
    intro seen x h
    rw [uniqAux] at h
    split at h
    · exact List.mem_cons_of_mem _ (ih _ _ h)
    · rcases List.mem_cons.mp h with h | h
      · exact h ▸ List.mem_cons_self _ _
      · exact List.mem_cons_of_mem _ (ih _ _ h)

lemma mem_allBrandsOf {store : List Record} {b : String} (hb : b ∈ allBrandsOf store) :
    ∃ r ∈ store, b = pyLowerS r.Brand := by
  simp only [allBrandsOf, uniqueFirst, List.mem_map] at hb
  obtain ⟨x, hx, rfl⟩ := hb
  have hx2 := uniqAux_subset _ _ _ hx
  simp only [List.mem_map] at hx2
  obtain ⟨r, hr, rfl⟩ := hx2
  exact ⟨r, hr, rfl⟩

lemma firstBrand_eq_none {brands : List String} {q : String}
    (h : ∀ b ∈ brands, occursIn b q = false) : firstBrand brands q = none := by
  induction brands with
  | nil => rfl
  | cons b rest ih =>
    rw [firstBrand]
    simp only [h b (List.mem_cons_self _ _), Bool.false_eq_true, if_false]
    exact ih (fun b' hb' => h b' (List.mem_cons_of_mem _ hb'))

lemma firstMinBy_eq_none {f : Record → ℚ} {l : List Record}
    (h : firstMinBy f l = none) : l = [] := by
  cases l with
  | nil => rfl
  | cons r rs =>
    cases h2 : firstMinBy f rs with
    | none => simp only [firstMinBy, h2] at h; cases h
    | some m => simp only [firstMinBy, h2] at h; by_cases hle : f r ≤ f m <;> simp [hle] at h

lemma firstMinBy_mem : ∀ {l : List Record} {f : Record → ℚ} {m : Record},
    firstMinBy f l = some m → m ∈ l := by
  intro l
  induction l with
  | nil => intro f m h; cases h
  | cons r rs ih =>
    intro f m h
    cases h2 : firstMinBy f rs with
    | none => simp only [firstMinBy, h2] at h; cases h; exact List.mem_cons_self _ _
    | some m' =>
      simp only [firstMinBy, h2] at h
      by_cases hle : f r ≤ f m'
      · rw [if_pos hle] at h; cases h; exact List.mem_cons_self _ _
      · rw [if_neg hle] at h; cases h; exact List.mem_cons_of_mem _ (ih h2)

lemma firstMinBy_le : ∀ {l : List Record} {f : Record → ℚ} {m : Record},
    firstMinBy f l = some m → ∀ r ∈ l, f m ≤ f r := by
  intro l
  induction l with
  | nil => intro f m h; cases h
  | cons r rs ih =>
    intro f m h x hx
    cases h2 : firstMinBy f rs with
    | none =>
      simp only [firstMinBy, h2] at h
      cases h
      have hrs : rs = [] := firstMinBy_eq_none h2
      subst hrs
      rcases List.mem_cons.mp hx with rfl | hx
      · exact le_refl _
      · cases hx
    | some m' =>
      simp only [firstMinBy, h2] at h
      by_cases hle : f r ≤ f m'
      · rw [if_pos hle] at h
        cases h
        rcases List.mem_cons.mp hx with rfl | hx
        · exact le_refl _
        · exact le_trans hle (ih h2 x hx)
      · rw [if_neg hle] at h
        cases h
        rcases List.mem_cons.mp hx with rfl | hx
        · exact le_of_lt (not_le.mp hle)
        · exact ih h2 x hx

lemma containsL_sound : ∀ {hay pat : List Char}, containsL hay pat = true → pat <:+: hay := by
  intro hay
  induction hay with
  | nil =>
    intro pat h
    cases pat with
    | nil => exact List.nil_infix
    | cons c t => simp [containsL, List.isEmpty] at h
  | cons c t ih =>
    intro pat h
    rw [containsL] at h
    cases hp : pat.isPrefixOf (c :: t) with
    | true => exact (List.isPrefixOf_iff_prefix.mp hp).isInfix
    | false => rw [hp, Bool.false_or] at h; exact List.infix_cons (ih h)

lemma fragKey_eq_filter (s : String) :
    fragKeyL s = (pyLowerL s.data).filter (fun a => !(isSepC a)) := by
  unfold fragKeyL removeChar
  rw [List.filter_filter]
  apply List.filter_congr
  intro a _
  by_cases h1 : a = ' ' <;> by_cases h2 : a = '-' <;> simp [h1, h2, isSepC]

lemma collapseAux_filter : ∀ (l : List Char) (b : Bool),
    (∀ a ∈ l, a.isWhitespace = true → a = ' ') →
    (collapseWsAux l b).filter (fun a => !(isSepC a)) = l.filter (fun a => !(isSepC a)) := by
  intro l
  induction l with
  | nil => intro b _; rfl
  | cons c rest ih =>
    intro b h
    have hrest : ∀ a ∈ rest, a.isWhitespace = true → a = ' ' :=
      fun a ha => h a (List.mem_cons_of_mem _ ha)
    by_cases hw : c.isWhitespace
    · have hcsp : c = ' ' := h c (List.mem_cons_self _ _) hw
      subst hcsp
      rw [collapseWsAux, if_pos hw]
      have hdrop : (fun a => !(isSepC a)) ' ' = false := by simp [isSepC]
      cases b <;> simp [List.filter_cons, hdrop, ih true hrest]
    · rw [collapseWsAux, if_neg hw]
      simp only [List.filter_cons]
      rw [ih false hrest]

/-- The heart of claim C10: if a list contains a separator with non-separator
characters somewhere on each side, then the result of deleting all separators
is never a contiguous infix of the original list. -/
lemma filtered_not_infix {x y : List Char} {c : Char}
    (hc : isSepC c = true)
    (hx : ∃ a ∈ x, isSepC a = false) (hy : ∃ a ∈ y, isSepC a = false) :
    ¬ ((x ++ c :: y).filter (fun a => !(isSepC a)) <:+: (x ++ c :: y)) := by
  intro hinf
  obtain ⟨p, s, hps⟩ := hinf
  have hkc : (x ++ c :: y).countP (fun a => !(isSepC a)) =
      ((x ++ c :: y).filter (fun a => !(isSepC a))).length :=
    List.countP_eq_length_filter _ _
  have hfc : ((x ++ c :: y).filter (fun a => !(isSepC a))).countP (fun a => !(isSepC a)) =
      ((x ++ c :: y).filter (fun a => !(isSepC a))).length :=
    List.countP_eq_length.mpr (fun a ha => (List.mem_filter.mp ha).2)
  have happ : p.countP (fun a => !(isSepC a)) +
      ((x ++ c :: y).filter (fun a => !(isSepC a))).countP (fun a => !(isSepC a)) +
      s.countP (fun a => !(isSepC a)) = (x ++ c :: y).countP (fun a => !(isSepC a)) := by
    rw [← List.countP_append, ← List.countP_append, hps]
  have hp0 : ∀ a ∈ p, ¬ ((fun a => !(isSepC a)) a = true) := List.countP_eq_zero.mp (by omega)
  have hs0 : ∀ a ∈ s, ¬ ((fun a => !(isSepC a)) a = true) := List.countP_eq_zero.mp (by omega)
  by_cases h1 : x.length ≤ p.length
  · obtain ⟨a, hax, ha⟩ := hx
    have hxk : x <+: (x ++ c :: y) := ⟨c :: y, rfl⟩
    have hpk : p <+: (x ++ c :: y) := ⟨(x ++ c :: y).filter (fun a => !(isSepC a)) ++ s, by
      rw [← List.append_assoc]; exact hps⟩
    have hxp : x <+: p := List.prefix_of_prefix_length_le hxk hpk h1
    exact hp0 a (hxp.subset hax) (by simp [ha])
  · by_cases h2 : p.length + ((x ++ c :: y).filter (fun a => !(isSepC a))).length ≤ x.length
    · obtain ⟨a, hay, ha⟩ := hy
      have hyk : y <:+ (x ++ c :: y) := ⟨x ++ [c], by simp⟩
      have hsk : s <:+ (x ++ c :: y) := ⟨p ++ (x ++ c :: y).filter (fun a => !(isSepC a)), hps⟩
      have hlen : p.length + ((x ++ c :: y).filter (fun a => !(isSepC a))).length + s.length =
          x.length + 1 + y.length := by
        have hl := congrArg List.length hps
        simp only [List.length_append, List.length_cons] at hl
        omega
      have hys : y <:+ s := List.suffix_of_suffix_length_le hyk hsk (by omega)
      exact hs0 a (hys.subset hay) (by simp [ha])
    · push_neg at h1 h2
      have hd : (p ++ (x ++ c :: y).filter (fun a => !(isSepC a)) ++ s).drop x.length =
          (x ++ c :: y).drop x.length := by rw [hps]
      have hp' : p.drop x.length = [] := List.drop_eq_nil_of_le (le_of_lt h1)
      have hs' : x.length - (p ++ (x ++ c :: y).filter (fun a => !(isSepC a))).length = 0 := by
        simp only [List.length_append]
        omega
      simp only [List.drop_append_eq_append_drop, hp', hs', Nat.sub_self, List.drop_zero,
        List.drop_length, List.nil_append] at hd
      cases hdp : ((x ++ c :: y).filter (fun a => !(isSepC a))).drop (x.length - p.length) with
      | nil =>
        have hlen := List.drop_eq_nil_iff.mp hdp
        omega
      | cons a d =>
        rw [hdp] at hd
        have hac : a = c := by
          have hh := congrArg List.head? hd
          simpa using hh
        have haf : a ∈ (x ++ c :: y).filter (fun a => !(isSepC a)) := by
          refine List.drop_subset (x.length - p.length) _ ?_
          rw [hdp]
          exact List.mem_cons_self a d
        have hPa := List.of_mem_filter haf
        rw [hac] at hPa
        simp [hc] at hPa

/-! ### Claims -/

/-- C1: the spec asserts that `process_query` always returns a string and never
lets an exception escape — in particular for a `compare X vs Y` query whose
fragments both resolve to records, and for a brand-scoped extremum query on a
brand present in the store.  The code violates this: when the first fragment
resolves, line 181 evaluates `not car1` on a multi-column pandas row, raising
`ValueError`; for a brand-scoped extremum the title-cased `found_brand`
(`Tesla`) never equals the upper-cased stored brand (`TESLA`), so the scope is
empty and `idxmax` raises `ValueError`.  This theorem evaluates the embedded
code at both failing inputs. -/
theorem c1_core_raises_on_advertised_queries :
    process_query evStore 0 "compare models vs i4" = Except.error PyErr.valueError ∧
    process_query evStore 0 "longest range tesla" = Except.error PyErr.valueError :=
  ⟨rfl, rfl⟩

/-- C2: the spec asserts a longest-range query scoped to brand B answers with a
record of brand B and never errors.  The code instead raises `ValueError`:
`found_brand` is `'Tesla'` (title case) while stored brands are upper-cased, so
the brand filter is empty and `idxmax` on line 225 raises.  This theorem
evaluates the embedded code at the failing input. -/
theorem c2_brand_scoped_range_raises :
    process_query evStore 0 "longest range for tesla" = Except.error PyErr.valueError := rfl

set_option maxHeartbeats 1000000 in
set_option maxRecDepth 8192 in
/-- C3: a dataset-wide `cheapest car` query (no brand name occurs in the query),
posed to a store with at least one positively priced record, answers with a
record of minimal positive price; a zero-priced record is never selected, even
when 0 is the global minimum of the price column. -/
theorem c3_cheapest_excludes_zero_priced (store : List Record) (rng : Nat)
    (hnb : ∀ r ∈ store, occursIn (pyLowerS r.Brand) "cheapest car" = false)
    (hpos : ∃ r ∈ store, 0 < r.Estimated_US_Value) :
    ∃ car ∈ store, 0 < car.Estimated_US_Value ∧
      (∀ r ∈ store, 0 < r.Estimated_US_Value → car.Estimated_US_Value ≤ r.Estimated_US_Value) ∧
      process_query store rng "cheapest car" =
        Except.ok ("Overall" ++ ", the cheapest is **" ++ car.Brand ++ " " ++ car.Model ++
          "** at **$" ++ fmtMoney car.Estimated_US_Value ++ "**.") := by
  obtain ⟨r0, hr0, hr0p⟩ := hpos
  cases store with
  | nil => cases hr0
  | cons a l =>
    have hfb : firstBrand (allBrandsOf (a :: l)) (pyStrip (pyLowerS "cheapest car")) = none := by
      apply firstBrand_eq_none
      intro b hb
      obtain ⟨r, hr, rfl⟩ := mem_allBrandsOf hb
      exact hnb r hr
    have hr0v : r0 ∈ (a :: l).filter (fun r => decide (0 < r.Estimated_US_Value)) :=
      List.mem_filter.mpr ⟨hr0, by simpa using hr0p⟩
    have hvne : (a :: l).filter (fun r => decide (0 < r.Estimated_US_Value)) ≠ [] := by
      intro h
      rw [h] at hr0v
      cases hr0v
    obtain ⟨car, hcar⟩ : ∃ car,
        firstMinBy (fun r => r.Estimated_US_Value)
          ((a :: l).filter (fun r => decide (0 < r.Estimated_US_Value))) = some car := by
      cases h : firstMinBy (fun r => r.Estimated_US_Value)
          ((a :: l).filter (fun r => decide (0 < r.Estimated_US_Value))) with
      | none => exact absurd (firstMinBy_eq_none h) hvne
      | some m => exact ⟨m, rfl⟩
    have hcm := firstMinBy_mem hcar
    have hcmem : car ∈ a :: l := List.mem_of_mem_filter hcm
    have hcpos : 0 < car.Estimated_US_Value := by
      have h2 := (List.mem_filter.mp hcm).2
      simpa using h2
    have hie : ((a :: l).filter (fun r => decide (0 < r.Estimated_US_Value))).isEmpty = false :=
      List.isEmpty_eq_false.mpr hvne
    refine ⟨car, hcmem, hcpos, ?_, ?_⟩
    · intro r hr hrp
      exact firstMinBy_le hcar r (List.mem_filter.mpr ⟨hr, by simpa using hrp⟩)
    · rw [process_query]
      simp only [List.isEmpty_cons, Bool.false_eq_true, if_false]
      have g1 : greetCond (pyStrip (pyLowerS "cheapest car")) = false := rfl
      have g2 : helpCond (pyStrip (pyLowerS "cheapest car")) = false := rfl
      have g3 : thanksCond (pyStrip (pyLowerS "cheapest car")) = false := rfl
      have g4 : brandListCond (pyStrip (pyLowerS "cheapest car")) = false := rfl
      have g5 : howManyCond (pyStrip (pyLowerS "cheapest car")) = false := rfl
      have g6 : summaryCond (pyStrip (pyLowerS "cheapest car")) = false := rfl
      have g7 : compareCond (pyStrip (pyLowerS "cheapest car")) = false := rfl
      have g8 : carSummaryCond (pyStrip (pyLowerS "cheapest car")) = false := rfl
      have g9 : rangeExtCond (pyStrip (pyLowerS "cheapest car")) = false := rfl
      have g10 : cheapCond (pyStrip (pyLowerS "cheapest car")) = true := rfl
      rw [answerQ]
      simp only [g1, g2, g3, g4, g5, g6, g7, g8, g9, g10, hfb, hie, hcar, Bool.false_and,
        Bool.false_eq_true, if_false, if_true, eq_self_iff_true]

/-- C3 witness: on `c3Store` (first row priced 0, minimum positive price 40000
on the NIO ET5) the hypotheses hold and the theorem applies. -/
theorem c3_witness :
    (∀ r ∈ c3Store, occursIn (pyLowerS r.Brand) "cheapest car" = false) ∧
    (∃ r ∈ c3Store, 0 < r.Estimated_US_Value) ∧
    (∃ car ∈ c3Store, 0 < car.Estimated_US_Value ∧
      (∀ r ∈ c3Store, 0 < r.Estimated_US_Value →
        car.Estimated_US_Value ≤ r.Estimated_US_Value) ∧
      process_query c3Store 0 "cheapest car" =
        Except.ok ("Overall" ++ ", the cheapest is **" ++ car.Brand ++ " " ++ car.Model ++
          "** at **$" ++ fmtMoney car.Estimated_US_Value ++ "**.")) :=
  ⟨by decide, by decide, c3_cheapest_excludes_zero_priced c3Store 0 (by decide) (by decide)⟩

/-- C4: the spec requires the EmptyScope message (`no priced cars found`) on
every cheapest path; the dataset-wide path (lines 228-233) returns it, but the
brand-specific best-price path (lines 248-250) has no emptiness or zero-price
guard, so the code raises instead of answering: with brand TESLA present and
its only record priced 0, `best tesla price` raises `ValueError` (and even with
a correctly matched brand scope the branch would look the unfiltered minimum up
in the positive-price subframe, raising `KeyError`).  This theorem evaluates
the embedded code at the failing input. -/
theorem c4_brand_price_path_raises :
    process_query zeroPriceStore 0 "best tesla price" = Except.error PyErr.valueError := rfl

/-- C5: the spec asserts `compare A vs B` for two distinct known brands reports
side-by-side statistics and never the rejection message.  The code always
rejects: the parsed names are title-cased (`Tesla`, `Bmw`) but stored brands
are upper-cased (`TESLA`, `BMW`), so `valid_brands` is empty on line 127.  This
theorem evaluates the embedded code at the failing input. -/
theorem c5_brand_comparison_rejects_valid_brands :
    process_query evStore 0 "compare tesla vs bmw" =
      Except.ok "Please compare **two valid brands**, e.g., `compare Tesla vs BMW`" := rfl

/-- C6 counterexample: the claim says `highest range` runs the longest-range
generator and names the maximum-range record.  In fact `"hi"` is a substring of
`"highest"`, so the greeting branch fires first: the answer is a greeting that
does not mention `ModelS`, the maximum-range model of `evStore`. -/
theorem c6_counterexample :
    process_query evStore 0 "highest range" =
      Except.ok "Hey there! Ready to dive into the world of EVs?" ∧
    (firstMaxBy (fun r => r.km_of_range) evStore).map (fun r => r.Model) = some "ModelS" ∧
    occursIn "ModelS" "Hey there! Ready to dive into the world of EVs?" = false :=
  ⟨rfl, rfl, rfl⟩

/-- C6 (amended): for every non-empty store, the query `highest range` is
classified as a greeting (the greeting keyword `hi` occurs inside `highest`),
so a greeting reply is returned; the longest-range generator requires
`longest`, `most` or `best` together with `range` (line 224 does not test
`highest`). -/
theorem c6_highest_range_greets (a : Record) (l : List Record) (rng : Nat) :
    process_query (a :: l) rng "highest range" = Except.ok (pyChoice greetPool rng) := rfl

set_option maxRecDepth 8192 in
/-- C7 counterexample: the claim says `info on B` reports brand B's display
form and model count.  In fact the keyword `info` matches the help intent
(line 65) first: `info on kia` returns the fixed help text, which contains no
casing of the brand name KIA. -/
theorem c7_counterexample :
    process_query kiaStore 0 "info on kia" = Except.ok helpText ∧
    occursIn "KIA" helpText = false ∧ occursIn "Kia" helpText = false ∧
    occursIn "kia" helpText = false :=
  ⟨rfl, by decide, by decide, by decide⟩

/-- C7 (amended): for every non-empty store, any query containing `info` — in
particular `info on B` for every known brand B — is intercepted before any
brand resolution is attempted: the answer is one of the three fixed greeting
replies (when a greeting keyword occurs in the query, e.g. `hi` inside
`mitsubishi` or `yo` inside `toyota`) or else the fixed help text (the
keyword `info` matches the help intent on line 65).  Both outcomes are canned
strings independent of the store, so the claimed per-brand summary (display
form plus model count) is never produced. -/
theorem c7_info_intercepted_before_brand_resolution
    (a : Record) (l : List Record) (rng : Nat) (query : String)
    (hinfo : occursIn "info" (pyStrip (pyLowerS query)) = true) :
    process_query (a :: l) rng query = Except.ok (pyChoice greetPool rng) ∨
    process_query (a :: l) rng query = Except.ok helpText := by
  have hpq : process_query (a :: l) rng query =
      answerQ (a :: l) rng (pyStrip (pyLowerS query)) (pyStrip query) := by
    rw [process_query]
    simp only [List.isEmpty_cons, Bool.false_eq_true, if_false]
  cases hg : greetCond (pyStrip (pyLowerS query)) with
  | true =>
    left
    rw [hpq, answerQ]
    simp [hg]
  | false =>
    right
    have hh : helpCond (pyStrip (pyLowerS query)) = true := by
      simp [helpCond, hinfo]
    rw [hpq, answerQ]
    simp [hg, hh]

/-- C7 witness: `info on kia` on `kiaStore` satisfies the hypothesis (the
theorem applies; here the help branch is the one taken), and both interception
outcomes are realized concretely: `info on kia` yields the help text while
`info on mitsubishi` (brand containing the greeting keyword `hi`) yields a
greeting reply. -/
theorem c7_witness :
    occursIn "info" (pyStrip (pyLowerS "info on kia")) = true ∧
    (process_query kiaStore 0 "info on kia" = Except.ok (pyChoice greetPool 0) ∨
      process_query kiaStore 0 "info on kia" = Except.ok helpText) ∧
    process_query kiaStore 0 "info on kia" = Except.ok helpText ∧
    process_query mitsubishiStore 0 "info on mitsubishi" =
      Except.ok (pyChoice greetPool 0) :=
  ⟨by decide,
    c7_info_intercepted_before_brand_resolution _ _ 0 "info on kia" (by decide),
    rfl, rfl⟩

/-- C8: for every query and random draw, the empty store short-circuits to the
fixed data-unavailable apology before any intent predicate is evaluated
(lines 50-51 precede the whole cascade). -/
theorem c8_empty_store_data_unavailable (rng : Nat) (query : String) :
    process_query [] rng query = Except.ok dataUnavailableMsg := rfl

/-- C9: for a fixed store, the answer to `longest range` is independent of the
random source: the extremum branch never consults `rng`, so two invocations
report the same brand, model and range value (randomness only affects the
conversational pools, which this query never reaches). -/
theorem c9_longest_range_deterministic (store : List Record) (r1 r2 : Nat) :
    process_query store r1 "longest range" = process_query store r2 "longest range" := by
  cases store with
  | nil => rfl
  | cons a l => rfl

/-- C10: a model whose key contains a separator (space or hyphen) with
non-separator characters on both sides can never be found via its own name:
the fragment normalization deletes all spaces and hyphens while `Model_Key`
keeps (collapsed) spaces, so the normalized fragment is not a substring of the
record's own key, and `find_car` on a store holding exactly that record fails.
The whitespace hypothesis says the lower-cased model name uses only plain
spaces (which `load_data`'s normalization guarantees for the stored data). -/
theorem c10_multiword_fragment_never_matches_own_key (r : Record) (x y : List Char) (c : Char)
    (hws : ∀ a ∈ pyLowerL r.Model.data, a.isWhitespace = true → a = ' ')
    (hk : modelKeyL r = x ++ c :: y) (hc : isSepC c = true)
    (hx : ∃ a ∈ x, isSepC a = false) (hy : ∃ a ∈ y, isSepC a = false) :
    containsL (modelKeyL r) (fragKeyL r.Model) = false ∧
    find_car [r] r.Model = none := by
  have hfilter : (modelKeyL r).filter (fun a => !(isSepC a)) = fragKeyL r.Model := by
    rw [fragKey_eq_filter]
    exact collapseAux_filter _ false hws
  have hninf : ¬ (fragKeyL r.Model <:+: modelKeyL r) := by
    rw [← hfilter, hk]
    exact filtered_not_infix hc hx hy
  have hcont : containsL (modelKeyL r) (fragKeyL r.Model) = false := by
    cases hcase : containsL (modelKeyL r) (fragKeyL r.Model) with
    | false => rfl
    | true => exact absurd (containsL_sound hcase) hninf
  refine ⟨hcont, ?_⟩
  simp [find_car, hcont]

/-- C10 witness: the record with model `Model 3`; its own name, used as the
lookup fragment (as in `tell me about Model 3`), is not found, and the
end-to-end query returns the not-found message. -/
theorem c10_witness :
    (∀ a ∈ pyLowerL modelThreeRec.Model.data, a.isWhitespace = true → a = ' ') ∧
    modelKeyL modelThreeRec = "model".data ++ ' ' :: "3".data ∧
    (containsL (modelKeyL modelThreeRec) (fragKeyL modelThreeRec.Model) = false ∧
      find_car [modelThreeRec] modelThreeRec.Model = none) ∧
    process_query [modelThreeRec] 0 "tell me about Model 3" =
      Except.ok "Sorry, I couldn\x27t find **Model 3**. Try a full model name." :=
  ⟨by decide, by decide,
    c10_multiword_fragment_never_matches_own_key modelThreeRec "model".data "3".data ' '
      (by decide) (by decide) (by decide) (by decide) (by decide),
    rfl⟩

end EV
